import Mathlib

/-!
Verification of the specklepy dashboard repository.

This file gives a shallow embedding of the repository's core code:
  * `src/src/specklepy/api/resources/stream.py` — the tracked stream resource,
  * `src/src/specklepy/api/credentials.py` — local-account helpers,
  * `src/speckle/api/resources/object.py` — the object resource,
  * `src/front_end/main.py` — the dashboard script's aggregations,
and proves the behavioural claims about it.

Machine-level conventions: GraphQL response envelopes are modelled by the
inductive `GqlValue`; calendar dates are modelled by day ordinals (`Nat`);
side calls to external collaborators (usage tracking, the remote GraphQL
service) are recorded in an explicit event log (`Call`).
-/

namespace Specklepy

/-- A (simplified) GraphQL response value: strings, numbers, booleans, null
and nested objects keyed by field name. -/
inductive GqlValue where
  | str (s : String)
  | num (n : Int)
  | boolean (b : Bool)
  | null
  | obj (fields : List (String × GqlValue))

/-- Look a field up in a `GqlValue.obj`; `none` on any other shape or a
missing field. -/
def GqlValue.getField : GqlValue → String → Option GqlValue
  | .obj fields, k => (fields.find? (fun p => p.1 == k)).map (fun p => p.2)
  | _, _ => none

/-- Unwrap a response envelope along a nested field path, the way
`ResourceBase.make_request` unwraps at its declared `return_type` path.
Modelled from the spec: `make_request` itself lives outside `src/`; the spec
says each operation "unwraps the result at the declared response path". -/
def unwrapPath : GqlValue → List String → Option GqlValue
  | v, [] => some v
  | v, k :: ks =>
    match v.getField k with
    | some v1 => unwrapPath v1 ks
    | none => none

/-- The metrics category constants used by `metrics.track` calls in
`stream.py` (`metrics.STREAM`, `metrics.PERMISSION`, `metrics.INVITE`). -/
inductive MetricCategory where
  | STREAM
  | PERMISSION
  | INVITE
deriving Repr, DecidableEq

/-- One observable side call made by a resource operation: a usage-tracking
event handed to the metrics collaborator (possibly failing inside the
collaborator), or one GraphQL request sent to the remote service. -/
inductive Call where
  | track (category : MetricCategory) (tags : List (String × String))
  | trackFailed (category : MetricCategory) (tags : List (String × String))
  | remote (operation : String) (params : List (String × String))
deriving Repr, DecidableEq

/-- Whether a call is an attempt to emit a usage-tracking event (successful
or failed inside the collaborator). -/
def Call.isTrackAttempt : Call → Bool
  | .track _ _ => true
  | .trackFailed _ _ => true
  | .remote _ _ => false

/-- Whether a call is a network request to the remote GraphQL service. -/
def Call.isRemote : Call → Bool
  | .remote _ _ => true
  | _ => false

/-- Modelled from the spec: `metrics.track` (in `specklepy/logging/metrics.py`,
not under `src/`) is a fire-and-forget side call; "failures in the
fire-and-forget usage-tracking side effect must never affect the primary
operation's result or raise to the caller". The boolean `ok` says whether the
delivery inside the collaborator succeeded; either way the function returns
normally, recording the attempt in the log. -/
def metricsTrack (ok : Bool) (category : MetricCategory)
    (tags : List (String × String)) : List Call :=
  if ok then [.track category tags] else [.trackFailed category tags]

/-- Collaborator on a stream (spec data model: "a user with an assigned role
on a stream"). -/
structure Collaborator where
  id : String
  name : String
  role : String
deriving Repr, DecidableEq

/-- Stream domain model. Modelled from the spec data model ("identifier,
name, description, visibility flag, collaborator list, branch/commit
totals"); the `Stream` class itself lives in `specklepy/api/models.py`,
not under `src/`. -/
structure Stream where
  id : String
  name : String
  description : String
  isPublic : Bool
  collaborators : List Collaborator
  branchTotal : Nat
  commitTotal : Nat
deriving Repr, DecidableEq

/-- Pending stream invite domain model (spec data model: "invite id, target
stream, invited identity (email or user id), role, message"). -/
structure PendingStreamCollaborator where
  inviteId : String
  streamId : String
  title : String
  role : String
deriving Repr, DecidableEq

/-- The server version reported by the connected server, as
`specklepy` stores it: either the literal tag `("dev",)` or a tuple of
numeric components. `stream.py` compares it against `(2, 6, 4)`. -/
inductive ServerVersion where
  | dev
  | release (components : List Nat)
deriving Repr, DecidableEq

/-- Python tuple comparison `a >= b` on numeric tuples: lexicographic, a
strict prefix is smaller. -/
def pyTupleGe : List Nat → List Nat → Bool
  | _, [] => true
  | [], _ :: _ => false
  | a :: as1, b :: bs =>
    if a > b then true
    else if a < b then false
    else pyTupleGe as1 bs

/-- The version-gate condition of `grant_permission`
(`stream.py` lines 174–176): the server version is set (truthy) and either
equals the literal `("dev",)` or compares `>= (2, 6, 4)`. -/
def grantPermissionGate : Option ServerVersion → Bool
  | none => false
  | some .dev => true
  | some (.release v) => pyTupleGe v [2, 6, 4]

/-- The deprecation message raised by `grant_permission`
(`stream.py` lines 177–182). -/
def grantPermissionMessage : String :=
  "Server mutation `grant_permission` is no longer supported as of"
    ++ " Speckle Server v2.6.4. Please use the new `update_permission` method"
    ++ " to change an existing user\x27s permission or use the `invite` method to"
    ++ " invite a user to a stream."

/-- Errors surfaced by resource operations: a locally raised
`UnsupportedException` (the spec's UnsupportedOperationError) carrying its
message, or a remote-side failure. -/
inductive SpeckleError where
  | unsupported (message : String)
  | service (message : String)
deriving Repr, DecidableEq

/-- The operations of the core stream resource
(`specklepy.core.api.resources.stream.Resource`, not under `src/`), kept
abstract: the tracked wrapper in `stream.py` delegates to these via
`super()` and the claims only concern how the wrapper relates to them. -/
structure CoreStreamOps where
  get : String → Nat → Nat → Stream
  list : Nat → List Stream
  create : String → String → Bool → String
  update : String → Option String → Option String → Option Bool → Bool
  delete : String → Bool
  search : String → Nat → Nat → Nat → List Stream
  favorite : String → Bool → Stream
  get_all_pending_invites : String → List PendingStreamCollaborator
  invite : String → Option String → Option String → String → Option String → Bool
  invite_batch : String → Option (List String) → Option (List String) → Option String → Bool
  invite_cancel : String → String → Bool
  invite_use : String → String → Bool → Bool
  update_permission : String → String → String → Bool
  revoke_permission : String → String → Bool

namespace StreamResource

/-- `Resource.get` (`stream.py` lines 29–42): tracks a STREAM event tagged
`name = get`, then returns `super().get(id, branch_limit, commit_limit)`. -/
def get (ok : Bool) (core : CoreStreamOps) (id : String)
    (branch_limit commit_limit : Nat) : List Call × Stream :=
  (metricsTrack ok .STREAM [("name", "get")], core.get id branch_limit commit_limit)

/-- `Resource.list` (`stream.py` lines 44–55): tracks a STREAM event tagged
`name = get` (the literal tag in the source), then returns
`super().list(stream_limit)`. -/
def list (ok : Bool) (core : CoreStreamOps) (stream_limit : Nat) :
    List Call × List Stream :=
  (metricsTrack ok .STREAM [("name", "get")], core.list stream_limit)

/-- `Resource.create` (`stream.py` lines 57–76): tracks a STREAM event tagged
`name = create`, then returns `super().create(name, description, is_public)`. -/
def create (ok : Bool) (core : CoreStreamOps) (name description : String)
    ( is_public : Bool) : List Call × String :=
  (metricsTrack ok .STREAM [("name", "create")], core.create name description is_public)

/-- `Resource.update` (`stream.py` lines 78–99): tracks a STREAM event tagged
`name = update`, then returns `super().update(id, name, description, is_public)`. -/
def update (ok : Bool) (core : CoreStreamOps) (id : String)
    (name description : Option String) ( is_public : Option Bool) :
    List Call × Bool :=
  (metricsTrack ok .STREAM [("name", "update")], core.update id name description is_public)

/-- `Resource.delete` (`stream.py` lines 101–112): tracks a STREAM event
tagged `name = delete`, then returns `super().delete(id)`. -/
def delete (ok : Bool) (core : CoreStreamOps) (id : String) :
    List Call × Bool :=
  (metricsTrack ok .STREAM [("name", "delete")], core.delete id)

/-- `Resource.search` (`stream.py` lines 114–134): tracks a STREAM event
tagged `name = search`, then returns
`super().search(search_query, limit, branch_limit, commit_limit)`. -/
def search (ok : Bool) (core : CoreStreamOps) (search_query : String)
    (limit branch_limit commit_limit : Nat) : List Call × List Stream :=
  (metricsTrack ok .STREAM [("name", "search")],
    core.search search_query limit branch_limit commit_limit)

/-- `Resource.favorite` (`stream.py` lines 136–149): tracks a STREAM event
tagged `name = favorite`, then returns `super().favorite(stream_id, favorited)`. -/
def favorite (ok : Bool) (core : CoreStreamOps) (stream_id : String)
    (favorited : Bool) : List Call × Stream :=
  (metricsTrack ok .STREAM [("name", "favorite")], core.favorite stream_id favorited)

/-- `Resource.grant_permission` (`stream.py` lines 151–207): tracks a
PERMISSION event tagged `name = add, role = role`; then, if the server
version is set and is `("dev",)` or at least `(2, 6, 4)`, raises
`UnsupportedException` with the deprecation message before any request is
sent; otherwise builds the `StreamGrantPermission` mutation and sends it
(`make_request` modelled from the spec: it delegates to the request
executor, whose raw response is the `response` argument, and unwraps at the
declared path `streamGrantPermission` without parsing). -/
def grant_permission (ok : Bool) (server_version : Option ServerVersion)
    (response : GqlValue) (stream_id user_id role : String) :
    List Call × Except SpeckleError GqlValue :=
  let tracked := metricsTrack ok .PERMISSION [("name", "add"), ("role", role)]
  if grantPermissionGate server_version then
    (tracked, .error (.unsupported grantPermissionMessage))
  else
    (tracked ++
      [.remote "streamGrantPermission"
        [("streamId", stream_id), ("userId", user_id), ("role", role)]],
      match unwrapPath response ["streamGrantPermission"] with
      | some v => .ok v
      | none => .error (.service "not found in response"))

/-- `Resource.get_all_pending_invites` (`stream.py` lines 209–226): tracks an
INVITE event tagged `name = get`, then returns
`super().get_all_pending_invites(stream_id)`. -/
def get_all_pending_invites (ok : Bool) (core : CoreStreamOps)
    (stream_id : String) : List Call × List PendingStreamCollaborator :=
  (metricsTrack ok .INVITE [("name", "get")], core.get_all_pending_invites stream_id)

/-- `Resource.invite` (`stream.py` lines 228–254): tracks an INVITE event
tagged `name = create`, then returns
`super().invite(stream_id, email, user_id, role, message)`. -/
def invite (ok : Bool) (core : CoreStreamOps) (stream_id : String)
    (email user_id : Option String) (role : String) (message : Option String) :
    List Call × Bool :=
  (metricsTrack ok .INVITE [("name", "create")],
    core.invite stream_id email user_id role message)

/-- `Resource.invite_batch` (`stream.py` lines 256–281): tracks an INVITE
event tagged `name = batch create`, then returns
`super().invite_batch(stream_id, emails, user_ids, message)`. -/
def invite_batch (ok : Bool) (core : CoreStreamOps) (stream_id : String)
    (emails user_ids : Option (List String)) (message : Option String) :
    List Call × Bool :=
  (metricsTrack ok .INVITE [("name", "batch create")],
    core.invite_batch stream_id emails user_ids message)

/-- `Resource.invite_cancel` (`stream.py` lines 283–297): tracks an INVITE
event tagged `name = cancel`, then returns
`super().invite_cancel(stream_id, invite_id)`. -/
def invite_cancel (ok : Bool) (core : CoreStreamOps)
    (stream_id invite_id : String) : List Call × Bool :=
  (metricsTrack ok .INVITE [("name", "cancel")], core.invite_cancel stream_id invite_id)

/-- `Resource.invite_use` (`stream.py` lines 299–315): tracks an INVITE event
tagged `name = use`, then returns `super().invite_use(stream_id, token, accept)`. -/
def invite_use (ok : Bool) (core : CoreStreamOps) (stream_id token : String)
    (accept : Bool) : List Call × Bool :=
  (metricsTrack ok .INVITE [("name", "use")], core.invite_use stream_id token accept)

/-- `Resource.update_permission` (`stream.py` lines 317–333): tracks a
PERMISSION event tagged `name = update, role = role`, then returns
`super().update_permission(stream_id, user_id, role)`. -/
def update_permission (ok : Bool) (core : CoreStreamOps)
    (stream_id user_id role : String) : List Call × Bool :=
  (metricsTrack ok .PERMISSION [("name", "update"), ("role", role)],
    core.update_permission stream_id user_id role)

/-- `Resource.revoke_permission` (`stream.py` lines 335–347): tracks a
PERMISSION event tagged `name = revoke`, then returns
`super().revoke_permission(stream_id, user_id)`. -/
def revoke_permission (ok : Bool) (core : CoreStreamOps)
    (stream_id user_id : String) : List Call × Bool :=
  (metricsTrack ok .PERMISSION [("name", "revoke")],
    core.revoke_permission stream_id user_id)

end StreamResource

/-- Object domain model (`speckle/objects/base.py`'s `Base`, not under
`src/`; fields modelled from the spec data model and from the field list the
`Object` query requests). Each field holds the raw response value at the
matching key (`GqlValue.null` when the key is absent, mirroring an optional
field deserialised from a missing key). -/
structure Base where
  id : GqlValue
  speckleType : GqlValue
  applicationId : GqlValue
  createdAt : GqlValue
  totalChildrenCount : GqlValue
  data : GqlValue

/-- Deserialise a response object into a `Base` domain model: requires an
object-shaped value and reads the six requested fields. Modelled from the
spec: the schema-parsing half of `make_request` is not under `src/`; the
spec says the operation returns "a Domain Model whose fields match the stub
response exactly at the declared unwrap path". -/
def parseBase : GqlValue → Option Base
  | .obj fields =>
    some
      { id := ((GqlValue.obj fields).getField "id").getD .null
        speckleType := ((GqlValue.obj fields).getField "speckleType").getD .null
        applicationId := ((GqlValue.obj fields).getField "applicationId").getD .null
        createdAt := ((GqlValue.obj fields).getField "createdAt").getD .null
        totalChildrenCount :=
          ((GqlValue.obj fields).getField "totalChildrenCount").getD .null
        data := ((GqlValue.obj fields).getField "data").getD .null }
  | _ => none

namespace ObjectResource

/-- `Resource.get` of the object resource (`object.py` lines 20–53): sends
the `Object(stream_id, object_id)` query and unwraps the response at the
declared path `return_type = [stream, object]`, deserialising the payload
into a `Base`. The raw envelope returned by the request executor is the
`response` argument; `make_request`'s unwrap-and-parse step is modelled from
the spec (its body is not under `src/`). -/
def get (response : GqlValue) (stream_id object_id : String) :
    List Call × Except SpeckleError Base :=
  ([.remote "Object" [("stream_id", stream_id), ("object_id", object_id)]],
    match unwrapPath response ["stream", "object"] with
    | some payload =>
      match parseBase payload with
      | some b => .ok b
      | none => .error (.service "could not parse response")
    | none => .error (.service "not found in response"))

end ObjectResource

/-- Local account record. Modelled from the spec data model ("server URL,
authentication token, default-account flag"); the `Account` class lives in
`specklepy/core/api/credentials.py`, not under `src/`. -/
structure Account where
  serverUrl : String
  token : String
  isDefault : Bool
deriving Repr, DecidableEq

/-- `get_default_account` (`credentials.py` lines 41–61): returns `None`
when no local accounts exist; otherwise the first account whose `isDefault`
flag is set (`next((acc for acc in accounts if acc.isDefault), None)`), and
when none is flagged, the first account after setting its `isDefault` flag
to `True`. The `accounts` argument is the list `core_get_local_accounts`
found on disk. -/
def get_default_account : List Account → Option Account
  | [] => none
  | a :: rest =>
    match (a :: rest).find? (fun acc => acc.isDefault) with
    | some d => some d
    | none => some { a with isDefault := true }

/-- Python's `dict.fromkeys` key set as a list: keys in insertion order,
keeping the first occurrence of each duplicate. The `seen` accumulator is
the set of keys already inserted. -/
def dictFromKeysAux {α : Type} [DecidableEq α] (seen : List α) :
    List α → List α
  | [] => []
  | x :: xs =>
    if seen.contains x then dictFromKeysAux seen xs
    else x :: dictFromKeysAux (x :: seen) xs

/-- `list(dict.fromkeys(l))` from `main.py` lines 123–125: the distinct
elements of `l` in first-seen order. -/
def dictFromKeys {α : Type} [DecidableEq α] (l : List α) : List α :=
  dictFromKeysAux [] l

/-- The connector card's distinct source-application names
(`main.py` line 125: `list(dict.fromkeys(connectorList))`). -/
def connectorNames (connectorList : List String) : List String :=
  dictFromKeys connectorList

/-- The connector card's distinct source-application count
(`main.py` line 123: `len(dict.fromkeys(connectorList))`). -/
def connectorCount (connectorList : List String) : Nat :=
  (dictFromKeys connectorList).length

/-- Outcome of the dashboard's stream-selection step: a stream was selected,
a message was shown to the operator, or an uncaught exception escaped the
script (a crash). -/
inductive SelectionOutcome where
  | selected (s : Stream)
  | reported (message : String)
  | crashed
deriving Repr, DecidableEq

/-- The dashboard's stream-selection step (`main.py` line 75:
`stream = client.stream.search(sName)[0]`). `searchResults` is the list the
`search` call returned; indexing `[0]` on an empty Python list raises an
uncaught `IndexError`, so an empty result crashes the script — `main.py` has
no guard and no user-facing message for this case. -/
def selectStream : List Stream → SelectionOutcome
  | [] => .crashed
  | s :: _ => .selected s

/-- Modelled from the spec (for refinement comparison only): "selecting a
nonexistent name yields an empty result, and the dashboard must not crash
but must report no stream found." -/
def specSelectStream : List Stream → SelectionOutcome
  | [] => .reported "no stream found"
  | s :: _ => .selected s

/-- Ascending stable sort of a date/count table by its date column
(`main.py` line 194: `.sort_values("createdAt")`). -/
def sortByDate (table : List (Nat × Nat)) : List (Nat × Nat) :=
  table.insertionSort (fun p q => p.1 ≤ q.1)

/-- The distinct dates of `dates` paired with their multiplicities
(`main.py` line 194: `value_counts().reset_index()` on the date column,
keeping the date → count table; the row order `value_counts` produces is
irrelevant because the rows are immediately re-sorted by date). -/
def valueCounts (dates : List Nat) : List (Nat × Nat) :=
  (dictFromKeys dates).map (fun d => (d, dates.count d))

/-- `pd.date_range(start=lo, end=hi)`: every calendar day from `lo` to `hi`
inclusive, in order (dates are modelled as day ordinals). -/
def dateRange (lo hi : Nat) : List Nat :=
  (List.range (hi + 1 - lo)).map (fun i => lo + i)

/-- The dashboard's commit-activity table (`main.py` lines 192–204): count
commits per calendar date (`value_counts`), sort by date, build the full day
range from the earliest to the latest date present, and reindex the table
over that range filling absent dates with count 0. Timestamps are modelled
as day ordinals (`pd.to_datetime(...).dt.date` truncation already applied).
An empty commit table is never reached by the script (it crashes earlier on
`commits[0]`); the `[]` branch is unreachable filler. -/
def commitActivity (dates : List Nat) : List (Nat × Nat) :=
  let cdate := sortByDate (valueCounts dates)
  match (cdate.map Prod.fst).min?, (cdate.map Prod.fst).max? with
  | some lo, some hi =>
    (dateRange lo hi).map
      (fun d => (d, ((cdate.find? (fun p => p.1 == d)).map Prod.snd).getD 0))
  | _, _ => []

/-- Whether `pat` is a prefix of `text` (character lists). -/
def leadsWith : List Char → List Char → Bool
  | [], _ => true
  | _ :: _, [] => false
  | a :: as1, b :: bs => a == b && leadsWith as1 bs

/-- Whether `pat` occurs contiguously somewhere inside `text`. -/
def hasSegment : List Char → List Char → Bool
  | [], pat => pat.isEmpty
  | c :: rest, pat => leadsWith pat (c :: rest) || hasSegment rest pat

/-- Whether string `s` mentions `pat` as a contiguous substring. -/
def strMentions (s pat : String) : Bool :=
  hasSegment s.toList pat.toList

/-- A fixed stream value used to instantiate stub collaborators in
witnesses. -/
def stubStream : Stream :=
  { id := "3073b96e86"
    name := "Demo Stream"
    description := "No description provided"
    isPublic := true
    collaborators := []
    branchTotal := 1
    commitTotal := 0 }

/-- A stub core stream resource whose operations return fixed values, used
to instantiate witnesses and counterexamples. -/
def stubCore : CoreStreamOps :=
  { get := fun _ _ _ => stubStream
    list := fun _ => [stubStream]
    create := fun _ _ _ => "3073b96e86"
    update := fun _ _ _ _ => true
    delete := fun _ => true
    search := fun _ _ _ _ => [stubStream]
    favorite := fun _ _ => stubStream
    get_all_pending_invites := fun _ => []
    invite := fun _ _ _ _ _ => true
    invite_batch := fun _ _ _ _ => true
    invite_cancel := fun _ _ => true
    invite_use := fun _ _ _ => true
    update_permission := fun _ _ _ => true
    revoke_permission := fun _ _ => true }

/-- The `name` tag attached to a usage-tracking attempt; `none` for remote
calls. -/
def Call.nameTag : Call → Option String
  | .track _ tags => (tags.find? (fun t => t.1 == "name")).map (fun t => t.2)
  | .trackFailed _ tags => (tags.find? (fun t => t.1 == "name")).map (fun t => t.2)
  | .remote _ _ => none

/-- The `name` tags of all usage-tracking attempts in a call log, in order. -/
def trackNameTags (calls : List Call) : List String :=
  calls.filterMap Call.nameTag

/-- A stub response envelope for the `Object` query, shaped like the remote
service's reply: `stream` with `id`, `name` and the requested `object`. -/
def stubObjectResponse : GqlValue :=
  .obj
    [("stream",
      .obj
        [("id", .str "84b62a23f0"),
         ("name", .str "Demo Stream"),
         ("object",
          .obj
            [("id", .str "a0b1c2d3e4"),
             ("speckleType", .str "Base"),
             ("applicationId", .str "Rhino7"),
             ("createdAt", .str "2024-01-01T00:00:00.000Z"),
             ("totalChildrenCount", .num 3),
             ("data", .obj [])])])]

/-- Membership in `dictFromKeysAux`: exactly the elements of the remaining
input that were not already inserted. -/
theorem mem_dictFromKeysAux {α : Type} [DecidableEq α] (seen l : List α)
    (x : α) : x ∈ dictFromKeysAux seen l ↔ x ∈ l ∧ x ∉ seen := by
  induction l generalizing seen with
  | nil => simp [dictFromKeysAux]
  | cons y ys ih =>
    rw [dictFromKeysAux]
    by_cases hy : y ∈ seen
    · rw [if_pos (by simpa using hy), ih]
      constructor
      · rintro ⟨hx, hxs⟩
        exact ⟨List.mem_cons_of_mem _ hx, hxs⟩
      · rintro ⟨hx, hxs⟩
        rcases List.mem_cons.mp hx with rfl | hx
        · exact absurd hy hxs
        · exact ⟨hx, hxs⟩
    · rw [if_neg (by simpa using hy)]
      constructor
      · intro hx
        rcases List.mem_cons.mp hx with rfl | hx
        · exact ⟨List.mem_cons_self _ _, hy⟩
        · rcases (ih _).mp hx with ⟨h1, h2⟩
          exact ⟨List.mem_cons_of_mem _ h1,
            fun hs => h2 (List.mem_cons_of_mem _ hs)⟩
      · rintro ⟨hx, hxs⟩
        rcases List.mem_cons.mp hx with rfl | hx
        · exact List.mem_cons_self _ _
        · by_cases hxy : x = y
          · subst hxy
            exact List.mem_cons_self _ _
          · exact List.mem_cons_of_mem _
              ((ih _).mpr ⟨hx, fun hs => (List.mem_cons.mp hs).elim hxy hxs⟩)

/-- The output of `dictFromKeysAux` contains no duplicates. -/
theorem nodup_dictFromKeysAux {α : Type} [DecidableEq α] (seen l : List α) :
    (dictFromKeysAux seen l).Nodup := by
  induction l generalizing seen with
  | nil => simp [dictFromKeysAux]
  | cons y ys ih =>
    rw [dictFromKeysAux]
    by_cases hy : y ∈ seen
    · rw [if_pos (by simpa using hy)]
      exact ih seen
    · rw [if_neg (by simpa using hy)]
      refine List.nodup_cons.mpr ⟨fun hmem => ?_, ih (y :: seen)⟩
      exact ((mem_dictFromKeysAux _ _ _).mp hmem).2 (List.mem_cons_self _ _)

/-- The output of `dictFromKeysAux` lists elements in first-seen order: the
positions of their first occurrences in the input are strictly increasing. -/
theorem pairwise_dictFromKeysAux {α : Type} [DecidableEq α] (seen l : List α) :
    (dictFromKeysAux seen l).Pairwise
      (fun a b => List.indexOf a l < List.indexOf b l) := by
  induction l generalizing seen with
  | nil => simp [dictFromKeysAux]
  | cons y ys ih =>
    rw [dictFromKeysAux]
    by_cases hy : y ∈ seen
    · rw [if_pos (by simpa using hy)]
      refine (ih seen).imp_of_mem ?_
      intro a b ha hb hab
      have hay : a ≠ y := fun h =>
        ((mem_dictFromKeysAux _ _ _).mp ha).2 (h ▸ hy)
      have hby : b ≠ y := fun h =>
        ((mem_dictFromKeysAux _ _ _).mp hb).2 (h ▸ hy)
      rw [List.indexOf_cons_ne _ (fun h => hay h.symm),
        List.indexOf_cons_ne _ (fun h => hby h.symm)]
      exact Nat.succ_lt_succ hab
    · rw [if_neg (by simpa using hy)]
      refine List.pairwise_cons.mpr ⟨?_, ?_⟩
      · intro b hb
        have hbmem := (mem_dictFromKeysAux _ _ _).mp hb
        have hby : b ≠ y := fun h => hbmem.2 (h ▸ List.mem_cons_self _ _)
        rw [List.indexOf_cons_self, List.indexOf_cons_ne _ (fun h => hby h.symm)]
        exact Nat.succ_pos _
      · refine (ih (y :: seen)).imp_of_mem ?_
        intro a b ha hb hab
        have hay : a ≠ y := fun h =>
          ((mem_dictFromKeysAux _ _ _).mp ha).2 (h ▸ List.mem_cons_self _ _)
        have hby : b ≠ y := fun h =>
          ((mem_dictFromKeysAux _ _ _).mp hb).2 (h ▸ List.mem_cons_self _ _)
        rw [List.indexOf_cons_ne _ (fun h => hay h.symm),
          List.indexOf_cons_ne _ (fun h => hby h.symm)]
        exact Nat.succ_lt_succ hab

/-- Membership in `dictFromKeys` agrees with membership in the input. -/
theorem mem_dictFromKeys {α : Type} [DecidableEq α] (l : List α) (x : α) :
    x ∈ dictFromKeys l ↔ x ∈ l := by
  rw [dictFromKeys, mem_dictFromKeysAux]
  simp

/-- `dictFromKeys` outputs are duplicate-free. -/
theorem nodup_dictFromKeys {α : Type} [DecidableEq α] (l : List α) :
    (dictFromKeys l).Nodup :=
  nodup_dictFromKeysAux [] l

/-- The key column of the value-counts table is the distinct-date list. -/
theorem map_fst_valueCounts (dates : List Nat) :
    (valueCounts dates).map Prod.fst = dictFromKeys dates := by
  simp only [valueCounts, List.map_map]
  exact List.map_id _ ▸ rfl

/-- Looking a date that did occur up in the sorted value-counts table finds
that date paired with its multiplicity. -/
theorem find?_commitTable_of_mem (dates : List Nat) (d : Nat)
    (hd : d ∈ dates) :
    (sortByDate (valueCounts dates)).find? (fun p => p.1 == d) =
      some (d, List.count d dates) := by
  have hperm := List.perm_insertionSort
    (fun p q : Nat × Nat => p.1 ≤ q.1) (valueCounts dates)
  have hmem : (d, List.count d dates) ∈ sortByDate (valueCounts dates) := by
    refine hperm.mem_iff.mpr ?_
    exact List.mem_map.mpr ⟨d, (mem_dictFromKeys _ _).mpr hd, rfl⟩
  have hsome :
      ((sortByDate (valueCounts dates)).find? (fun p => p.1 == d)).isSome :=
    List.find?_isSome.mpr ⟨_, hmem, by simp⟩
  obtain ⟨x, hx⟩ := Option.isSome_iff_exists.mp hsome
  have hxmem := List.mem_of_find?_eq_some hx
  have hxp := List.find?_some hx
  have hxvc : x ∈ valueCounts dates := hperm.mem_iff.mp hxmem
  obtain ⟨k, hk, hkx⟩ := List.mem_map.mp hxvc
  subst hkx
  have hkd : k = d := by simpa using hxp
  subst hkd
  exact hx

/-- Looking a date that never occurred up in the sorted value-counts table
finds nothing. -/
theorem find?_commitTable_of_not_mem (dates : List Nat) (d : Nat)
    (hd : d ∉ dates) :
    (sortByDate (valueCounts dates)).find? (fun p => p.1 == d) = none := by
  have hperm := List.perm_insertionSort
    (fun p q : Nat × Nat => p.1 ≤ q.1) (valueCounts dates)
  refine List.find?_eq_none.mpr ?_
  intro x hx
  obtain ⟨k, hk, hkx⟩ := List.mem_map.mp (hperm.mem_iff.mp hx)
  subst hkx
  have hkmem : k ∈ dates := (mem_dictFromKeys _ _).mp hk
  simp only [beq_iff_eq]
  exact fun h => hd (h ▸ hkmem)

/-- Membership in the filled date range is exactly the closed interval. -/
theorem mem_dateRange (lo hi d : Nat) (hlh : lo ≤ hi) :
    d ∈ dateRange lo hi ↔ lo ≤ d ∧ d ≤ hi := by
  simp only [dateRange, List.mem_map, List.mem_range]
  constructor
  · rintro ⟨i, hi2, rfl⟩
    omega
  · rintro ⟨h1, h2⟩
    exact ⟨d - lo, by omega, by omega⟩

/-- The filled date range contains each day exactly once. -/
theorem nodup_dateRange (lo hi : Nat) : (dateRange lo hi).Nodup :=
  (List.nodup_range _).map (fun a b h => by omega)

/-- Claim C5: the commit-activity time series derived by the dashboard is
calendar-complete: for every non-empty commit-date list there are an
earliest date `lo` and a latest date `hi` among the commits such that the
series' date column is exactly the day range from `lo` to `hi` (each
calendar date in between appearing exactly once, as the range is
duplicate-free), and every row carries the number of commits on its date
(0 for dates with no commits). -/
theorem commitActivity_calendar_complete (dates : List Nat)
    (h : dates ≠ []) :
    ∃ lo hi, lo ∈ dates ∧ hi ∈ dates ∧ (∀ d ∈ dates, lo ≤ d ∧ d ≤ hi) ∧
      (commitActivity dates).map Prod.fst = dateRange lo hi ∧
      (dateRange lo hi).Nodup ∧
      (∀ d, d ∈ dateRange lo hi ↔ lo ≤ d ∧ d ≤ hi) ∧
      ∀ p ∈ commitActivity dates, p.2 = List.count p.1 dates := by
  have hperm := List.perm_insertionSort
    (fun p q : Nat × Nat => p.1 ≤ q.1) (valueCounts dates)
  have hkperm :
      ((sortByDate (valueCounts dates)).map Prod.fst).Perm
        (dictFromKeys dates) :=
    map_fst_valueCounts dates ▸ hperm.map Prod.fst
  have hkmem : ∀ d : Nat,
      d ∈ (sortByDate (valueCounts dates)).map Prod.fst ↔ d ∈ dates := by
    intro d
    rw [hkperm.mem_iff, mem_dictFromKeys]
  obtain ⟨d0, hd0⟩ := List.exists_mem_of_ne_nil dates h
  have hkne : (sortByDate (valueCounts dates)).map Prod.fst ≠ [] := by
    intro he
    have hd0k := (hkmem d0).mpr hd0
    rw [he] at hd0k
    exact List.not_mem_nil _ hd0k
  cases hmin : ((sortByDate (valueCounts dates)).map Prod.fst).min? with
  | none => exact absurd (List.min?_eq_none_iff.mp hmin) hkne
  | some lo =>
  cases hmax : ((sortByDate (valueCounts dates)).map Prod.fst).max? with
  | none => exact absurd (List.max?_eq_none_iff.mp hmax) hkne
  | some hi =>
  have hminc := (List.min?_eq_some_iff Nat.le_refl
    (fun a b => min_choice a b) (fun a b c => Nat.le_min)).mp hmin
  have hmaxc := (List.max?_eq_some_iff Nat.le_refl
    (fun a b => max_choice a b) (fun a b c => Nat.max_le)).mp hmax
  have hlomem : lo ∈ dates := (hkmem lo).mp hminc.1
  have hhimem : hi ∈ dates := (hkmem hi).mp hmaxc.1
  have hbounds : ∀ d ∈ dates, lo ≤ d ∧ d ≤ hi := by
    intro d hd
    exact ⟨hminc.2 d ((hkmem d).mpr hd), hmaxc.2 d ((hkmem d).mpr hd)⟩
  have hlohi : lo ≤ hi := (hbounds lo hlomem).2
  have hact : commitActivity dates =
      (dateRange lo hi).map
        (fun d => (d,
          (((sortByDate (valueCounts dates)).find?
            (fun p => p.1 == d)).map Prod.snd).getD 0)) := by
    simp only [commitActivity]
    rw [hmin, hmax]
  refine ⟨lo, hi, hlomem, hhimem, hbounds, ?_, nodup_dateRange lo hi,
    fun d => mem_dateRange lo hi d hlohi, ?_⟩
  · rw [hact, List.map_map]
    exact List.map_id _ ▸ rfl
  · intro p hp
    rw [hact] at hp
    obtain ⟨d, hd, rfl⟩ := List.mem_map.mp hp
    by_cases hdm : d ∈ dates
    · rw [find?_commitTable_of_mem dates d hdm]
      simp
    · rw [find?_commitTable_of_not_mem dates d hdm]
      simp [List.count_eq_zero.mpr hdm]

/-- Witness for claim C5: commits on days 1 and 3 (2024-01-01 and
2024-01-03 as day ordinals within the month) yield exactly the 3-entry
series [(1, 1), (2, 0), (3, 1)], and the calendar-completeness theorem
applies to this input. -/
theorem commitActivity_calendar_complete_witness :
    commitActivity [1, 3] = [(1, 1), (2, 0), (3, 1)] ∧
    ∃ lo hi, lo ∈ ([1, 3] : List Nat) ∧ hi ∈ ([1, 3] : List Nat) ∧
      (∀ d ∈ ([1, 3] : List Nat), lo ≤ d ∧ d ≤ hi) ∧
      (commitActivity [1, 3]).map Prod.fst = dateRange lo hi ∧
      (dateRange lo hi).Nodup ∧
      (∀ d, d ∈ dateRange lo hi ↔ lo ≤ d ∧ d ≤ hi) ∧
      ∀ p ∈ commitActivity [1, 3], p.2 = List.count p.1 [1, 3] :=
  ⟨by decide, commitActivity_calendar_complete [1, 3] (by decide)⟩

/-- Claim C6: the connector card's distinct source-application aggregation
returns the count of distinct names (the cardinality of the name set) and
the list of distinct names in first-seen order (duplicate-free, containing
exactly the input's names, ordered by the position of each name's first
occurrence); on input [Rhino, Rhino, Grasshopper] the count is 2 and the
names are [Rhino, Grasshopper]. -/
theorem connector_distinct_first_seen (l : List String) :
    connectorCount l = l.toFinset.card ∧
    (connectorNames l).Nodup ∧
    (∀ x, x ∈ connectorNames l ↔ x ∈ l) ∧
    (connectorNames l).Pairwise
      (fun a b => List.indexOf a l < List.indexOf b l) ∧
    connectorCount ["Rhino", "Rhino", "Grasshopper"] = 2 ∧
    connectorNames ["Rhino", "Rhino", "Grasshopper"] = ["Rhino", "Grasshopper"] := by
  refine ⟨?_, nodup_dictFromKeys l, fun x => mem_dictFromKeys l x,
    pairwise_dictFromKeysAux [] l, by decide, by decide⟩
  rw [connectorCount, ← List.toFinset_card_of_nodup (nodup_dictFromKeys l)]
  congr 1
  ext x
  simp [List.mem_toFinset, mem_dictFromKeys]

/-- Every usage-tracking call records exactly one tracking attempt. -/
theorem countP_isTrackAttempt_metricsTrack (ok : Bool) (cat : MetricCategory)
    (tags : List (String × String)) :
    (metricsTrack ok cat tags).countP Call.isTrackAttempt = 1 := by
  cases ok <;> rfl

/-- A usage-tracking call makes no network request to the remote service. -/
theorem countP_isRemote_metricsTrack (ok : Bool) (cat : MetricCategory)
    (tags : List (String × String)) :
    (metricsTrack ok cat tags).countP Call.isRemote = 0 := by
  cases ok <;> rfl

/-- The name tag recorded by a tracking attempt is the first `name` entry of
its tag list. -/
theorem trackNameTags_metricsTrack (ok : Bool) (cat : MetricCategory)
    (v : String) (rest : List (String × String)) :
    trackNameTags (metricsTrack ok cat (("name", v) :: rest)) = [v] := by
  cases ok <;> simp [metricsTrack, trackNameTags, Call.nameTag]

/-- Claim C2, amended: every stream resource operation attempts exactly one
usage-tracking event per call; the event's name tag is the literal written
in the source, which equals the operation's name for get, create, update,
delete, search and favorite, but is `get` for list, `add` for
grant_permission, `update` for update_permission, `revoke` for
revoke_permission, `get` for get_all_pending_invites, `create` for invite,
`batch create` for invite_batch, `cancel` for invite_cancel and `use` for
invite_use. -/
theorem each_operation_tracks_exactly_once :
    (∀ ok core (id : String) bl cl,
      (StreamResource.get ok core id bl cl).1.countP Call.isTrackAttempt = 1 ∧
      trackNameTags (StreamResource.get ok core id bl cl).1 = ["get"]) ∧
    (∀ ok core n,
      (StreamResource.list ok core n).1.countP Call.isTrackAttempt = 1 ∧
      trackNameTags (StreamResource.list ok core n).1 = ["get"]) ∧
    (∀ ok core nm de pu,
      (StreamResource.create ok core nm de pu).1.countP Call.isTrackAttempt = 1 ∧
      trackNameTags (StreamResource.create ok core nm de pu).1 = ["create"]) ∧
    (∀ ok core id nm de pu,
      (StreamResource.update ok core id nm de pu).1.countP Call.isTrackAttempt = 1 ∧
      trackNameTags (StreamResource.update ok core id nm de pu).1 = ["update"]) ∧
    (∀ ok core id,
      (StreamResource.delete ok core id).1.countP Call.isTrackAttempt = 1 ∧
      trackNameTags (StreamResource.delete ok core id).1 = ["delete"]) ∧
    (∀ ok core q li bl cl,
      (StreamResource.search ok core q li bl cl).1.countP Call.isTrackAttempt = 1 ∧
      trackNameTags (StreamResource.search ok core q li bl cl).1 = ["search"]) ∧
    (∀ ok core sid fav,
      (StreamResource.favorite ok core sid fav).1.countP Call.isTrackAttempt = 1 ∧
      trackNameTags (StreamResource.favorite ok core sid fav).1 = ["favorite"]) ∧
    (∀ ok sv resp sid uid role,
      (StreamResource.grant_permission ok sv resp sid uid role).1.countP
        Call.isTrackAttempt = 1 ∧
      trackNameTags (StreamResource.grant_permission ok sv resp sid uid role).1
        = ["add"]) ∧
    (∀ ok core sid,
      (StreamResource.get_all_pending_invites ok core sid).1.countP
        Call.isTrackAttempt = 1 ∧
      trackNameTags (StreamResource.get_all_pending_invites ok core sid).1
        = ["get"]) ∧
    (∀ ok core sid em uid role msg,
      (StreamResource.invite ok core sid em uid role msg).1.countP
        Call.isTrackAttempt = 1 ∧
      trackNameTags (StreamResource.invite ok core sid em uid role msg).1
        = ["create"]) ∧
    (∀ ok core sid ems uids msg,
      (StreamResource.invite_batch ok core sid ems uids msg).1.countP
        Call.isTrackAttempt = 1 ∧
      trackNameTags (StreamResource.invite_batch ok core sid ems uids msg).1
        = ["batch create"]) ∧
    (∀ ok core sid iid,
      (StreamResource.invite_cancel ok core sid iid).1.countP
        Call.isTrackAttempt = 1 ∧
      trackNameTags (StreamResource.invite_cancel ok core sid iid).1
        = ["cancel"]) ∧
    (∀ ok core sid tok acc,
      (StreamResource.invite_use ok core sid tok acc).1.countP
        Call.isTrackAttempt = 1 ∧
      trackNameTags (StreamResource.invite_use ok core sid tok acc).1
        = ["use"]) ∧
    (∀ ok core sid uid role,
      (StreamResource.update_permission ok core sid uid role).1.countP
        Call.isTrackAttempt = 1 ∧
      trackNameTags (StreamResource.update_permission ok core sid uid role).1
        = ["update"]) ∧
    (∀ ok core sid uid,
      (StreamResource.revoke_permission ok core sid uid).1.countP
        Call.isTrackAttempt = 1 ∧
      trackNameTags (StreamResource.revoke_permission ok core sid uid).1
        = ["revoke"]) := by
  refine ⟨?_, ?_, ?_, ?_, ?_, ?_, ?_, ?_, ?_, ?_, ?_, ?_, ?_, ?_, ?_⟩
  case _ => intro ok core id bl cl
            exact ⟨countP_isTrackAttempt_metricsTrack ok _ _,
              trackNameTags_metricsTrack ok _ _ _⟩
  case _ => intro ok core n
            exact ⟨countP_isTrackAttempt_metricsTrack ok _ _,
              trackNameTags_metricsTrack ok _ _ _⟩
  case _ => intro ok core nm de pu
            exact ⟨countP_isTrackAttempt_metricsTrack ok _ _,
              trackNameTags_metricsTrack ok _ _ _⟩
  case _ => intro ok core id nm de pu
            exact ⟨countP_isTrackAttempt_metricsTrack ok _ _,
              trackNameTags_metricsTrack ok _ _ _⟩
  case _ => intro ok core id
            exact ⟨countP_isTrackAttempt_metricsTrack ok _ _,
              trackNameTags_metricsTrack ok _ _ _⟩
  case _ => intro ok core q li bl cl
            exact ⟨countP_isTrackAttempt_metricsTrack ok _ _,
              trackNameTags_metricsTrack ok _ _ _⟩
  case _ => intro ok core sid fav
            exact ⟨countP_isTrackAttempt_metricsTrack ok _ _,
              trackNameTags_metricsTrack ok _ _ _⟩
  case _ =>
    intro ok sv resp sid uid role
    by_cases hg : grantPermissionGate sv = true <;>
      cases ok <;>
        simp [StreamResource.grant_permission, hg, metricsTrack,
          trackNameTags, Call.nameTag, Call.isTrackAttempt,
          List.countP_append, List.countP_cons]
  case _ => intro ok core sid
            exact ⟨countP_isTrackAttempt_metricsTrack ok _ _,
              trackNameTags_metricsTrack ok _ _ _⟩
  case _ => intro ok core sid em uid role msg
            exact ⟨countP_isTrackAttempt_metricsTrack ok _ _,
              trackNameTags_metricsTrack ok _ _ _⟩
  case _ => intro ok core sid ems uids msg
            exact ⟨countP_isTrackAttempt_metricsTrack ok _ _,
              trackNameTags_metricsTrack ok _ _ _⟩
  case _ => intro ok core sid iid
            exact ⟨countP_isTrackAttempt_metricsTrack ok _ _,
              trackNameTags_metricsTrack ok _ _ _⟩
  case _ => intro ok core sid tok acc
            exact ⟨countP_isTrackAttempt_metricsTrack ok _ _,
              trackNameTags_metricsTrack ok _ _ _⟩
  case _ => intro ok core sid uid role
            exact ⟨countP_isTrackAttempt_metricsTrack ok _ _,
              trackNameTags_metricsTrack ok _ _ _⟩
  case _ => intro ok core sid uid
            exact ⟨countP_isTrackAttempt_metricsTrack ok _ _,
              trackNameTags_metricsTrack ok _ _ _⟩

/-- Counterexample for claim C2 as stated: the `list` operation's tracking
event carries the name tag `get` (the literal in `stream.py` line 53), not
the operation's name `list`. -/
theorem list_track_tag_is_get_not_list :
    trackNameTags (StreamResource.list true stubCore 10).1 = ["get"] ∧
    ("get" : String) ≠ "list" := by
  exact ⟨by decide, by decide⟩

/-- Claim C3: for every stream resource operation, a failure of the
usage-tracking side call (delivery flag `false` instead of `true`) leaves
the operation's primary result unchanged: tracking failures are swallowed
inside the metrics collaborator and never reach the caller. -/
theorem tracking_failure_does_not_change_result :
    (∀ core (id : String) bl cl,
      (StreamResource.get false core id bl cl).2 =
        (StreamResource.get true core id bl cl).2) ∧
    (∀ core n,
      (StreamResource.list false core n).2 =
        (StreamResource.list true core n).2) ∧
    (∀ core nm de pu,
      (StreamResource.create false core nm de pu).2 =
        (StreamResource.create true core nm de pu).2) ∧
    (∀ core id nm de pu,
      (StreamResource.update false core id nm de pu).2 =
        (StreamResource.update true core id nm de pu).2) ∧
    (∀ core id,
      (StreamResource.delete false core id).2 =
        (StreamResource.delete true core id).2) ∧
    (∀ core q li bl cl,
      (StreamResource.search false core q li bl cl).2 =
        (StreamResource.search true core q li bl cl).2) ∧
    (∀ core sid fav,
      (StreamResource.favorite false core sid fav).2 =
        (StreamResource.favorite true core sid fav).2) ∧
    (∀ sv resp sid uid role,
      (StreamResource.grant_permission false sv resp sid uid role).2 =
        (StreamResource.grant_permission true sv resp sid uid role).2) ∧
    (∀ core sid,
      (StreamResource.get_all_pending_invites false core sid).2 =
        (StreamResource.get_all_pending_invites true core sid).2) ∧
    (∀ core sid em uid role msg,
      (StreamResource.invite false core sid em uid role msg).2 =
        (StreamResource.invite true core sid em uid role msg).2) ∧
    (∀ core sid ems uids msg,
      (StreamResource.invite_batch false core sid ems uids msg).2 =
        (StreamResource.invite_batch true core sid ems uids msg).2) ∧
    (∀ core sid iid,
      (StreamResource.invite_cancel false core sid iid).2 =
        (StreamResource.invite_cancel true core sid iid).2) ∧
    (∀ core sid tok acc,
      (StreamResource.invite_use false core sid tok acc).2 =
        (StreamResource.invite_use true core sid tok acc).2) ∧
    (∀ core sid uid role,
      (StreamResource.update_permission false core sid uid role).2 =
        (StreamResource.update_permission true core sid uid role).2) ∧
    (∀ core sid uid,
      (StreamResource.revoke_permission false core sid uid).2 =
        (StreamResource.revoke_permission true core sid uid).2) := by
  refine ⟨fun _ _ _ _ => rfl, fun _ _ => rfl, fun _ _ _ _ => rfl,
    fun _ _ _ _ _ => rfl, fun _ _ => rfl, fun _ _ _ _ _ => rfl,
    fun _ _ _ => rfl, ?_, fun _ _ => rfl, fun _ _ _ _ _ _ => rfl,
    fun _ _ _ _ _ => rfl, fun _ _ _ => rfl, fun _ _ _ _ => rfl,
    fun _ _ _ _ => rfl, fun _ _ _ => rfl⟩
  intro sv resp sid uid role
  by_cases hg : grantPermissionGate sv = true <;>
    simp [StreamResource.grant_permission, hg]

/-- Claim C8: every delegated stream resource operation (all but
grant_permission) returns, for all arguments, exactly the value the core
(base) resource operation returns on the same arguments: the tracking
wrapper changes neither arguments nor result. -/
theorem wrapper_delegates_unchanged :
    (∀ ok core (id : String) bl cl,
      (StreamResource.get ok core id bl cl).2 = core.get id bl cl) ∧
    (∀ ok core n, (StreamResource.list ok core n).2 = core.list n) ∧
    (∀ ok core nm de pu,
      (StreamResource.create ok core nm de pu).2 = core.create nm de pu) ∧
    (∀ ok core id nm de pu,
      (StreamResource.update ok core id nm de pu).2 = core.update id nm de pu) ∧
    (∀ ok core id, (StreamResource.delete ok core id).2 = core.delete id) ∧
    (∀ ok core q li bl cl,
      (StreamResource.search ok core q li bl cl).2 = core.search q li bl cl) ∧
    (∀ ok core sid fav,
      (StreamResource.favorite ok core sid fav).2 = core.favorite sid fav) ∧
    (∀ ok core sid,
      (StreamResource.get_all_pending_invites ok core sid).2 =
        core.get_all_pending_invites sid) ∧
    (∀ ok core sid em uid role msg,
      (StreamResource.invite ok core sid em uid role msg).2 =
        core.invite sid em uid role msg) ∧
    (∀ ok core sid ems uids msg,
      (StreamResource.invite_batch ok core sid ems uids msg).2 =
        core.invite_batch sid ems uids msg) ∧
    (∀ ok core sid iid,
      (StreamResource.invite_cancel ok core sid iid).2 =
        core.invite_cancel sid iid) ∧
    (∀ ok core sid tok acc,
      (StreamResource.invite_use ok core sid tok acc).2 =
        core.invite_use sid tok acc) ∧
    (∀ ok core sid uid role,
      (StreamResource.update_permission ok core sid uid role).2 =
        core.update_permission sid uid role) ∧
    (∀ ok core sid uid,
      (StreamResource.revoke_permission ok core sid uid).2 =
        core.revoke_permission sid uid) :=
  ⟨fun _ _ _ _ _ => rfl, fun _ _ _ => rfl, fun _ _ _ _ _ => rfl,
    fun _ _ _ _ _ _ => rfl, fun _ _ _ => rfl, fun _ _ _ _ _ _ => rfl,
    fun _ _ _ _ => rfl, fun _ _ _ => rfl, fun _ _ _ _ _ _ _ => rfl,
    fun _ _ _ _ _ _ => rfl, fun _ _ _ _ => rfl, fun _ _ _ _ _ => rfl,
    fun _ _ _ _ _ => rfl, fun _ _ _ _ => rfl⟩

/-- Claim C1: when the connected server's reported numeric version is at
least the threshold (2, 6, 4), a `grant_permission` call raises the
deprecation error locally: the result is the UnsupportedException carrying
the deprecation message, the call log contains zero network calls to the
remote service, and the message carries guidance toward the replacement
operations `update_permission` and `invite`. -/
theorem grant_permission_rejects_locally_after_threshold
    (ok : Bool) (response : GqlValue) (v : List Nat)
    (stream_id user_id role : String)
    (hge : pyTupleGe v [2, 6, 4] = true) :
    (StreamResource.grant_permission ok (some (.release v)) response
      stream_id user_id role).2 =
      .error (.unsupported grantPermissionMessage) ∧
    (StreamResource.grant_permission ok (some (.release v)) response
      stream_id user_id role).1.countP Call.isRemote = 0 ∧
    strMentions grantPermissionMessage "update_permission" = true ∧
    strMentions grantPermissionMessage "invite" = true := by
  have hg : grantPermissionGate (some (.release v)) = true := hge
  refine ⟨?_, ?_, by decide, by decide⟩
  · simp [StreamResource.grant_permission, hg]
  · simp only [StreamResource.grant_permission, hg, if_pos]
    exact countP_isRemote_metricsTrack ok _ _

/-- Witness for claim C1: calling `grant_permission` against server version
(2, 6, 4) itself rejects locally with the guidance message and no remote
call. -/
theorem grant_permission_rejects_locally_after_threshold_witness :
    pyTupleGe [2, 6, 4] [2, 6, 4] = true ∧
    ((StreamResource.grant_permission true (some (.release [2, 6, 4])) .null
      "3073b96e86" "d1e2f3" "stream:contributor").2 =
      .error (.unsupported grantPermissionMessage) ∧
    (StreamResource.grant_permission true (some (.release [2, 6, 4])) .null
      "3073b96e86" "d1e2f3" "stream:contributor").1.countP Call.isRemote = 0 ∧
    strMentions grantPermissionMessage "update_permission" = true ∧
    strMentions grantPermissionMessage "invite" = true) :=
  ⟨by decide,
    grant_permission_rejects_locally_after_threshold true .null [2, 6, 4]
      "3073b96e86" "d1e2f3" "stream:contributor" (by decide)⟩

/-- Claim C9: the `grant_permission` version gate fires exactly when the
server version is known and incompatible: the call raises
UnsupportedException if and only if the reported version is set and is
either the literal `dev` tag or a numeric version at least (2, 6, 4); when
the version is unset, the mutation is sent to the server (exactly one
remote call) with no local rejection. -/
theorem grant_permission_gate_iff (ok : Bool) (sv : Option ServerVersion)
    (response : GqlValue) (stream_id user_id role : String) :
    ((∃ m, (StreamResource.grant_permission ok sv response stream_id user_id
        role).2 = .error (.unsupported m)) ↔
      (sv = some .dev ∨
        ∃ v, sv = some (.release v) ∧ pyTupleGe v [2, 6, 4] = true)) ∧
    (sv = none →
      (StreamResource.grant_permission ok sv response stream_id user_id
        role).1.countP Call.isRemote = 1 ∧
      ∀ m, (StreamResource.grant_permission ok sv response stream_id user_id
        role).2 ≠ .error (.unsupported m)) := by
  have hnotun : ∀ m,
      (match unwrapPath response ["streamGrantPermission"] with
        | some w => Except.ok w
        | none => Except.error (SpeckleError.service "not found in response"))
        ≠ (Except.error (SpeckleError.unsupported m) :
            Except SpeckleError GqlValue) := by
    intro m
    cases unwrapPath response ["streamGrantPermission"] <;> simp
  cases sv with
  | none =>
    refine ⟨⟨fun hex => ?_, fun hor => ?_⟩, fun _ => ⟨?_, fun m => ?_⟩⟩
    · obtain ⟨m, hm⟩ := hex
      exact absurd hm (hnotun m)
    · rcases hor with h | ⟨v, h, _⟩ <;> cases h
    · cases ok <;> rfl
    · exact hnotun m
  | some ver =>
    cases ver with
    | dev =>
      refine ⟨⟨fun _ => Or.inl rfl, fun _ => ⟨grantPermissionMessage, rfl⟩⟩,
        fun h => by cases h⟩
    | release v =>
      refine ⟨?_, fun h => by cases h⟩
      by_cases hv : pyTupleGe v [2, 6, 4] = true
      · have h2 : (StreamResource.grant_permission ok (some (.release v))
            response stream_id user_id role).2 =
            .error (.unsupported grantPermissionMessage) := by
          have hg : grantPermissionGate (some (.release v)) = true := hv
          simp [StreamResource.grant_permission, hg]
        exact ⟨fun _ => Or.inr ⟨v, rfl, hv⟩,
          fun _ => ⟨grantPermissionMessage, h2⟩⟩
      · have hg : grantPermissionGate (some (.release v)) = false :=
          eq_false_of_ne_true hv
        have h3 : (StreamResource.grant_permission ok (some (.release v))
            response stream_id user_id role).2 =
            (match unwrapPath response ["streamGrantPermission"] with
              | some w => Except.ok w
              | none =>
                Except.error (SpeckleError.service "not found in response")) := by
          simp [StreamResource.grant_permission, hg]
        refine ⟨fun hex => ?_, fun hor => ?_⟩
        · obtain ⟨m, hm⟩ := hex
          rw [h3] at hm
          exact absurd hm (hnotun m)
        · rcases hor with h | ⟨v2, h, hv2⟩
          · cases h
          · rw [Option.some_inj] at h
            cases h
            exact absurd hv2 hv

/-- Witness for claim C9: with the server version unset, `grant_permission`
sends exactly one remote mutation and raises no UnsupportedException. -/
theorem grant_permission_gate_iff_witness :
    (StreamResource.grant_permission true none
      (.obj [("streamGrantPermission", .boolean true)])
      "3073b96e86" "d1e2f3" "stream:reviewer").1.countP Call.isRemote = 1 ∧
    ∀ m, (StreamResource.grant_permission true none
      (.obj [("streamGrantPermission", .boolean true)])
      "3073b96e86" "d1e2f3" "stream:reviewer").2 ≠
        .error (.unsupported m) :=
  (grant_permission_gate_iff true none
    (.obj [("streamGrantPermission", .boolean true)])
    "3073b96e86" "d1e2f3" "stream:reviewer").2 rfl

/-- Claim C7: the object resource's `get` sends the
`Object(stream_id, object_id)` query (one remote call carrying those two
parameters) and unwraps the response at the nested path `stream.object`,
returning a `Base` whose six fields (id, speckleType, applicationId,
createdAt, totalChildrenCount, data) are exactly the values at that path in
the stub response. -/
theorem object_get_unwraps_stream_object (response : GqlValue)
    (payloadFields : List (String × GqlValue)) (stream_id object_id : String)
    (h : unwrapPath response ["stream", "object"] = some (.obj payloadFields)) :
    ObjectResource.get response stream_id object_id =
      ([.remote "Object" [("stream_id", stream_id), ("object_id", object_id)]],
        .ok
          { id := ((GqlValue.obj payloadFields).getField "id").getD .null
            speckleType :=
              ((GqlValue.obj payloadFields).getField "speckleType").getD .null
            applicationId :=
              ((GqlValue.obj payloadFields).getField "applicationId").getD .null
            createdAt :=
              ((GqlValue.obj payloadFields).getField "createdAt").getD .null
            totalChildrenCount :=
              ((GqlValue.obj payloadFields).getField
                "totalChildrenCount").getD .null
            data :=
              ((GqlValue.obj payloadFields).getField "data").getD .null }) := by
  simp [ObjectResource.get, h, parseBase]

/-- Witness for claim C7: fetching from a concrete stub envelope returns the
`Base` whose fields are exactly the stub's values at `stream.object`. -/
theorem object_get_unwraps_stream_object_witness :
    ObjectResource.get stubObjectResponse "84b62a23f0" "a0b1c2d3e4" =
      ([.remote "Object"
          [("stream_id", "84b62a23f0"), ("object_id", "a0b1c2d3e4")]],
        .ok
          { id := .str "a0b1c2d3e4"
            speckleType := .str "Base"
            applicationId := .str "Rhino7"
            createdAt := .str "2024-01-01T00:00:00.000Z"
            totalChildrenCount := .num 3
            data := .obj [] }) :=
  object_get_unwraps_stream_object stubObjectResponse
    [("id", .str "a0b1c2d3e4"),
     ("speckleType", .str "Base"),
     ("applicationId", .str "Rhino7"),
     ("createdAt", .str "2024-01-01T00:00:00.000Z"),
     ("totalChildrenCount", .num 3),
     ("data", .obj [])]
    "84b62a23f0" "a0b1c2d3e4" rfl

/-- Counterexample for claim C4 as stated: when the search result is empty,
the dashboard's selection step (`main.py` line 75) crashes with an uncaught
IndexError instead of reporting "no stream found" — `main.py` contains no
guard and no such message. -/
theorem empty_search_crashes_not_reports :
    selectStream [] = SelectionOutcome.crashed ∧
    specSelectStream [] = SelectionOutcome.reported "no stream found" ∧
    selectStream [] ≠ specSelectStream [] :=
  ⟨rfl, rfl, by decide⟩

/-- Claim C4, amended: the dashboard selects the first stream of the search
result; when the search yields an empty result the selection step crashes
(an uncaught IndexError), with no "no stream found" report. -/
theorem dashboard_selects_first_search_result :
    (∀ (s : Stream) (rest : List Stream),
      selectStream (s :: rest) = SelectionOutcome.selected s) ∧
    selectStream [] = SelectionOutcome.crashed :=
  ⟨fun _ _ => rfl, rfl⟩

/-- Claim C10: `get_default_account` returns `None` iff no local accounts
exist; otherwise it returns the (first) account whose isDefault flag is
set, and when no stored account is flagged default it returns the first
account with its isDefault flag mutated to `True`. -/
theorem get_default_account_spec (accounts : List Account) :
    (get_default_account accounts = none ↔ accounts = []) ∧
    (∀ d, accounts.find? (fun a => a.isDefault) = some d →
      get_default_account accounts = some d) ∧
    (∀ a rest, accounts = a :: rest →
      accounts.find? (fun x => x.isDefault) = none →
      get_default_account accounts = some { a with isDefault := true }) := by
  cases accounts with
  | nil =>
    refine ⟨by simp [get_default_account], fun d hd => ?_, fun a rest he _ => ?_⟩
    · simp at hd
    · cases he
  | cons a rest =>
    cases hf : (a :: rest).find? (fun x => x.isDefault) with
    | none =>
      refine ⟨?_, fun d hd => ?_, fun a2 rest2 he _ => ?_⟩
      · simp [get_default_account, hf]
      · cases hd
      · cases he
        simp [get_default_account, hf]
    | some d0 =>
      refine ⟨?_, fun d hd => ?_, fun a2 rest2 he hn => ?_⟩
      · simp [get_default_account, hf]
      · rw [Option.some_inj] at hd
        cases hd
        simp [get_default_account, hf]
      · cases hn

/-- Witness for claim C10: a single stored account with the default flag
unset is returned with its flag mutated to true. -/
theorem get_default_account_spec_witness :
    get_default_account
      [{ serverUrl := "https://speckle.xyz", token := "t0",
         isDefault := false }] =
      some { serverUrl := "https://speckle.xyz", token := "t0",
             isDefault := true } :=
  (get_default_account_spec _).2.2
    { serverUrl := "https://speckle.xyz", token := "t0", isDefault := false }
    [] rfl (by decide)

end Specklepy
